import Mathlib

/-!
# osl_capi: the flat C adapter over the shading library

A shallow embedding of `src/osl_capi/osl_capi.cpp`.

Conventions of the embedding.

* A pointer is its machine address (`Ptr`, `0` is the null pointer).  A
  `const char*` that the adapter only forwards is represented by the text it
  points to (`CStr`).
* A C function pointer is `Option` of a function: `none` is the null pointer.
* Code outside the adapter (caller callbacks, host library operations) may
  have any effect; it is a state transformer over a world type `σ` chosen by
  whoever supplies it.  The host library is not part of the repository, so its
  operations are parameters (`RendererServices`, `Host`).
* Mutation of an object through its handle (`rsw->_supports = ...`) is explicit
  state passing on the record behind the handle.
* To count calls, the callbacks and host operations can be instantiated with
  recorders over the world `List Event` / `List HostCall`; a run of the adapter
  then leaves in the log exactly the calls it made, in order.
-/

namespace OslCapi

/-- Machine address; `0` is the null pointer. -/
abbrev Ptr := Nat

/-- The text a forwarded `const char*` points to. -/
abbrev CStr := String

/-- C++ implicit conversion `int → bool`: every non-zero value is `true`. -/
def int_to_bool (i : Int) : Bool := i != 0

/-- C++ integral value of a `bool`. -/
def bool_to_int (b : Bool) : Int := if b then 1 else 0

/-! ## Renderer-services bridge (lines 49-81, 189-210) -/

/-- Caller callback `int (*RSFn_supports)(void* rs_obj, const char* feature)`. -/
abbrev RSFn_supports (σ : Type) := Ptr → CStr → σ → Int × σ

/-- Caller callback
`int (*RSFn_get_matrix)(void* rs_obj, ShaderGlobals sg, OSL::Matrix44* result, TransformationPtr xform)`. -/
abbrev RSFn_get_matrix (σ : Type) := Ptr → Ptr → Ptr → Ptr → σ → Int × σ

/-- The two default implementations of the host base class
`OSL::RendererServices` that the bridge can fall back to.  The out-matrix of
`get_matrix` is passed by reference, that is, by its address; its contents
live in the world. -/
structure RendererServices (σ : Type) where
  supports : CStr → σ → Int × σ
  get_matrix : Ptr → Ptr → Ptr → σ → Bool × σ

/-- Data members of `class RendererServicesWrapperApi`. -/
structure RendererServicesWrapperApi (σ : Type) where
  _rs_obj : Ptr
  _supports : Option (RSFn_supports σ) := none
  _get_matrix : Option (RSFn_get_matrix σ) := none

/-- Method `RendererServicesWrapperApi::supports`. -/
def RendererServicesWrapperApi.supports {σ : Type} (self : RendererServicesWrapperApi σ)
    (base : RendererServices σ) (feature : CStr) (s : σ) : Int × σ :=
  match self._supports with
  | some f => f self._rs_obj feature s
  | none => base.supports feature s

/-- Method `RendererServicesWrapperApi::get_matrix`.  The callback returns `int`, the
method returns `bool`; `result` is the address of the out-matrix. -/
def RendererServicesWrapperApi.get_matrix {σ : Type} (self : RendererServicesWrapperApi σ)
    (base : RendererServices σ) (sg result xform : Ptr) (s : σ) : Bool × σ :=
  match self._get_matrix with
  | some f =>
      let r := f self._rs_obj sg result xform s
      (int_to_bool r.1, r.2)
  | none => base.get_matrix sg result xform s

/-- Entry point `RendererServicesWrapper_create`: `new RendererServicesWrapperApi()`.  Both
slots carry the default member initializer `nullptr`; `_rs_obj` has no
initializer in the class, its starting value is the parameter `rs_obj0`. -/
def RendererServicesWrapper_create (σ : Type) (rs_obj0 : Ptr) : RendererServicesWrapperApi σ :=
  { _rs_obj := rs_obj0, _supports := none, _get_matrix := none }

/-- Entry point `RendererServicesWrapper_set_rust_object`. -/
def RendererServicesWrapper_set_rust_object {σ : Type} (rsw : RendererServicesWrapperApi σ)
    (rs_obj : Ptr) : RendererServicesWrapperApi σ :=
  { rsw with _rs_obj := rs_obj }

/-- Entry point `RendererServicesWrapper_setfn_supports`. -/
def RendererServicesWrapper_setfn_supports {σ : Type} (rsw : RendererServicesWrapperApi σ)
    (supports : Option (RSFn_supports σ)) : RendererServicesWrapperApi σ :=
  { rsw with _supports := supports }

/-- Entry point `RendererServicesWrapper_setfn_get_matrix`. -/
def RendererServicesWrapper_setfn_get_matrix {σ : Type} (rsw : RendererServicesWrapperApi σ)
    (get_matrix : Option (RSFn_get_matrix σ)) : RendererServicesWrapperApi σ :=
  { rsw with _get_matrix := get_matrix }

/-- One call that leaves the adapter through a bridge: to a caller callback
(`cb_*`, `error_impl`) or to a host default (`host_*`), with its arguments. -/
inductive Event where
  | cb_supports (rs_obj : Ptr) (feature : CStr)
  | cb_get_matrix (rs_obj sg result xform : Ptr)
  | host_supports (feature : CStr)
  | host_get_matrix (sg result xform : Ptr)
  | error_impl (error_code : Int) (msg : CStr)
  deriving DecidableEq, Repr

/-- A `supports` callback that records its call and answers `ret rs_obj feature`. -/
def spy_supports (ret : Ptr → CStr → Int) : RSFn_supports (List Event) :=
  fun rs_obj feature log => (ret rs_obj feature, log ++ [Event.cb_supports rs_obj feature])

/-- A `get_matrix` callback that records its call and answers `ret`. -/
def spy_get_matrix (ret : Ptr → Ptr → Ptr → Ptr → Int) : RSFn_get_matrix (List Event) :=
  fun rs_obj sg result xform log =>
    (ret rs_obj sg result xform, log ++ [Event.cb_get_matrix rs_obj sg result xform])

/-- Host defaults that record their calls and answer from `rs` and `rm`. -/
def spy_base (rs : CStr → Int) (rm : Ptr → Ptr → Ptr → Bool) : RendererServices (List Event) where
  supports := fun feature log => (rs feature, log ++ [Event.host_supports feature])
  get_matrix := fun sg result xform log =>
    (rm sg result xform, log ++ [Event.host_get_matrix sg result xform])

/-! ## Error-handler bridge (lines 34-47, 212-222) -/

/-- Caller callback `void (*ErrorHandlerImpl)(int, const char*)`. -/
abbrev ErrorHandlerImpl (σ : Type) := Int → CStr → σ → σ

/-- The character `NUL` that terminates a C string. -/
def NUL : Char := Char.ofNat 0

/-- The C string read through a `const char*` that points at the characters
`buf`: everything before the first `NUL`. -/
def read_cstr (buf : List Char) : CStr := String.mk (buf.takeWhile (fun c => c != NUL))

/-- Library method `std::string::c_str()`: a pointer to the characters of `msg` followed by a
terminating `NUL`, given as the C string a reader of that pointer sees.  A
`std::string` is a sequence of characters that may itself contain `NUL`. -/
def c_str (msg : String) : CStr := read_cstr (msg.data ++ [NUL])

/-- Modelled from the spec: the host base class `OIIO::ErrorHandler` (declared in
the host header `OpenImageIO/errorhandler.h`, which is not under src/).  Of it
the adapter uses the verbosity level that the accessors `verbosity(int)` and
`verbosity()` store and return (spec 4.3 and testable property 7). -/
structure OIIO_ErrorHandler where
  m_verbosity : Int
  deriving DecidableEq, Repr

/-- Modelled from the spec: host setter `OIIO::ErrorHandler::verbosity(int)`. -/
def OIIO_ErrorHandler.verbosity_set (self : OIIO_ErrorHandler) (v : Int) : OIIO_ErrorHandler :=
  { self with m_verbosity := v }

/-- Modelled from the spec: host getter `OIIO::ErrorHandler::verbosity()`. -/
def OIIO_ErrorHandler.verbosity (self : OIIO_ErrorHandler) : Int := self.m_verbosity

/-- The bridge `class ErrorHandlerWrapper : public OIIO::ErrorHandler`. -/
structure ErrorHandlerWrapper (σ : Type) extends OIIO_ErrorHandler where
  _error_handler_impl : Option (ErrorHandlerImpl σ)

/-- Method `ErrorHandlerWrapper::operator()`.  Calling through a null function pointer
is undefined behaviour: `none`. -/
def ErrorHandlerWrapper.call {σ : Type} (self : ErrorHandlerWrapper σ) (error_code : Int)
    (msg : String) (s : σ) : Option σ :=
  match self._error_handler_impl with
  | some impl => some (impl error_code (c_str msg) s)
  | none => none

/-- Entry point `ErrorHandler_create`: `new ErrorHandlerWrapper(impl)`.  The base class is
default-constructed by the host; `verbosity0` is the level it starts with. -/
def ErrorHandler_create {σ : Type} (verbosity0 : Int) (impl : Option (ErrorHandlerImpl σ)) :
    ErrorHandlerWrapper σ :=
  { m_verbosity := verbosity0, _error_handler_impl := impl }

/-- Entry point `ErrorHandler_set_verbosity`: `eh->verbosity(verbosity)`. -/
def ErrorHandler_set_verbosity {σ : Type} (eh : ErrorHandlerWrapper σ) (verbosity : Int) :
    ErrorHandlerWrapper σ :=
  { eh with toOIIO_ErrorHandler := eh.toOIIO_ErrorHandler.verbosity_set verbosity }

/-- Entry point `ErrorHandler_get_verbosity`: `return eh->verbosity()`. -/
def ErrorHandler_get_verbosity {σ : Type} (eh : ErrorHandlerWrapper σ) : Int :=
  eh.toOIIO_ErrorHandler.verbosity

/-- An error callback that records its call. -/
def spy_error_impl : ErrorHandlerImpl (List Event) :=
  fun error_code msg log => log ++ [Event.error_impl error_code msg]

/-! ## Shader-group holder and flat entry points (lines 19-25, 83-181, 224-232) -/

/-- POD mirror `struct TypeDesc`; the cast `*(OIIO::TypeDesc*)&typedesc` hands the
same five fields to the host. -/
structure TypeDesc where
  basetype : Nat
  aggregate : Nat
  vecsemantics : Nat
  reserved : Nat
  arraylen : Int
  deriving DecidableEq, Repr

/-- Reference counts of the objects managed by `std::shared_ptr`, by object
address: the number of strong references, and whether the object was deleted. -/
structure RcHeap where
  use_count : Ptr → Nat
  freed : Ptr → Bool

/-- A `std::shared_ptr<OSL::ShaderGroup>`: its stored pointer (`0` when empty).
A non-empty one accounts for one unit of `use_count` of its object. -/
structure shared_ptr where
  ptr : Ptr
  deriving DecidableEq, Repr

/-- Library method `shared_ptr::get()`: the stored pointer. -/
def shared_ptr.get (sp : shared_ptr) : Ptr := sp.ptr

/-- Copy construction of a `shared_ptr`: one more strong reference. -/
def shared_ptr.copy (sp : shared_ptr) (h : RcHeap) : RcHeap :=
  if sp.ptr = 0 then h
  else { h with use_count := Function.update h.use_count sp.ptr (h.use_count sp.ptr + 1) }

/-- Destruction of a `shared_ptr`: one strong reference less; the object is
deleted when the count reaches zero. -/
def shared_ptr.destroy (sp : shared_ptr) (h : RcHeap) : RcHeap :=
  if sp.ptr = 0 then h
  else
    let n := h.use_count sp.ptr - 1
    { use_count := Function.update h.use_count sp.ptr n
      freed := if n = 0 then Function.update h.freed sp.ptr true else h.freed }

/-- Drop of `k` strong references to the object of `sp`, one after the other,
by whoever owns them. -/
def shared_ptr.destroy_n (sp : shared_ptr) : Nat → RcHeap → RcHeap
  | 0, h => h
  | k + 1, h => shared_ptr.destroy_n sp k (sp.destroy h)

/-- The world the entry points run in: the reference counts and the state `H`
of the host library. -/
structure World (H : Type) where
  rc : RcHeap
  host : H

/-- The holder `struct ShaderGroupRefApi`. -/
structure ShaderGroupRefApi where
  group : shared_ptr
  deriving DecidableEq, Repr

/-- The view `OIIO::cspan<ustring>(data, size)`: a view of `size` elements from `data`. -/
structure cspan where
  data : Ptr
  size : Int
  deriving DecidableEq, Repr

/-- The host operations the entry points below call, as parameters; the first
argument is the shading system (`ss`).  References (`*ctx`, `*group->group`)
are passed as addresses.  `attribute_global` and `attribute_group` are the two
overloads of `ShadingSystem::attribute`, without and with a group, and
`ShadingSystem_new` is the constructor.  `R` is the host value type
`OIIO::ROI`. -/
structure Host (H R : Type) where
  ShadingSystem_new : Ptr → Ptr → Ptr → World H → Ptr × World H
  attribute_global : Ptr → CStr → TypeDesc → Ptr → World H → Bool × World H
  attribute_group : Ptr → Ptr → CStr → TypeDesc → Ptr → World H → Bool × World H
  ShaderGroupBegin : Ptr → CStr → World H → shared_ptr × World H
  Shader : Ptr → Ptr → CStr → CStr → CStr → World H → Bool × World H
  execute : Ptr → Ptr → Ptr → Ptr → Bool → World H → Bool × World H
  shade_image : Ptr → Ptr → Ptr → Ptr → cspan → Int → R → World H → Bool × World H

/-- Entry point `ShadingSystem_create`: `new OSL::ShadingSystem(renderer, NULL, NULL)`. -/
def ShadingSystem_create {H R : Type} (host : Host H R) (renderer : Ptr) (w : World H) :
    Ptr × World H :=
  host.ShadingSystem_new renderer 0 0 w

/-- Entry point `ShadingSystem_create_with_error_handler`:
`new OSL::ShadingSystem(renderer, NULL, eh)`. -/
def ShadingSystem_create_with_error_handler {H R : Type} (host : Host H R) (renderer eh : Ptr)
    (w : World H) : Ptr × World H :=
  host.ShadingSystem_new renderer 0 eh w

/-- Entry point `ShadingSystem_attribute`. -/
def ShadingSystem_attribute {H R : Type} (host : Host H R) (ss : Ptr) (name : CStr)
    (typedesc : TypeDesc) (val : Ptr) (w : World H) : Bool × World H :=
  host.attribute_global ss name typedesc val w

/-- Entry point `ShadingSystem_group_attribute`. -/
def ShadingSystem_group_attribute {H R : Type} (host : Host H R) (ss : Ptr)
    (group : ShaderGroupRefApi) (name : CStr) (typedesc : TypeDesc) (val : Ptr) (w : World H) :
    Bool × World H :=
  host.attribute_group ss group.group.get name typedesc val w

/-- Entry point `ShadingSystem_shader_group_begin`:
`new ShaderGroupRefApi(ss->ShaderGroupBegin(groupname))`.  The handle returned by
the host initialises the constructor parameter; the member `group` is
copy-constructed from the parameter, then the parameter is destroyed. -/
def ShadingSystem_shader_group_begin {H R : Type} (host : Host H R) (ss : Ptr) (groupname : CStr)
    (w : World H) : ShaderGroupRefApi × World H :=
  let r := host.ShaderGroupBegin ss groupname w
  let param := r.1
  let w1 := r.2
  let w2 : World H := { w1 with rc := param.copy w1.rc }
  let w3 : World H := { w2 with rc := param.destroy w2.rc }
  ({ group := param }, w3)

/-- Entry point `ShadingSystem_shader`. -/
def ShadingSystem_shader {H R : Type} (host : Host H R) (ss : Ptr) (group : ShaderGroupRefApi)
    (shaderusage shadername layername : CStr) (w : World H) : Bool × World H :=
  host.Shader ss group.group.ptr shaderusage shadername layername w

/-- Entry point `ShadingSystem_execute`. -/
def ShadingSystem_execute {H R : Type} (host : Host H R) (ss ctx : Ptr) (group : ShaderGroupRefApi)
    (sg : Ptr) (run : Bool) (w : World H) : Bool × World H :=
  host.execute ss ctx group.group.ptr sg run w

/-- Entry point `ShaderGroup_destroy`: `delete group` destroys the member `group`. -/
def ShaderGroup_destroy {H : Type} (group : ShaderGroupRefApi) (w : World H) : World H :=
  { w with rc := group.group.destroy w.rc }

/-- Entry point `shade_image`. -/
def shade_image {H R : Type} (host : Host H R) (ss : Ptr) (group : ShaderGroupRefApi)
    (defaultsg imagebuf outputs : Ptr) (noutputs shadelocations : Int) (roi : R) (w : World H) :
    Bool × World H :=
  host.shade_image ss group.group.ptr defaultsg imagebuf { data := outputs, size := noutputs }
    shadelocations roi w

/-- One call into the host library, with its arguments. -/
inductive HostCall (R : Type) where
  | ShadingSystem_new (renderer texturesys err : Ptr)
  | attribute_global (ss : Ptr) (name : CStr) (typedesc : TypeDesc) (val : Ptr)
  | attribute_group (ss group : Ptr) (name : CStr) (typedesc : TypeDesc) (val : Ptr)
  | ShaderGroupBegin (ss : Ptr) (groupname : CStr)
  | Shader (ss group : Ptr) (shaderusage shadername layername : CStr)
  | execute (ss ctx group sg : Ptr) (run : Bool)
  | shade_image (ss group defaultsg imagebuf : Ptr) (outputs : cspan) (shadelocations : Int)
      (roi : R)

/-- Append a call to the log kept in the host state. -/
def World.record {R : Type} (w : World (List (HostCall R))) (c : HostCall R) :
    World (List (HostCall R)) :=
  { w with host := w.host ++ [c] }

/-- A host that records every call made to it and answers each status from
`answer`.  Its constructor yields the address `ss_addr`; its `ShaderGroupBegin`
yields the group at `grp` with `kept + 1` strong references: `kept` held by
the host itself and the one it returns. -/
def spy_host (R : Type) (answer : HostCall R → Bool) (ss_addr grp : Ptr) (kept : Nat) :
    Host (List (HostCall R)) R where
  ShadingSystem_new := fun r t e w => (ss_addr, w.record (.ShadingSystem_new r t e))
  attribute_global := fun ss n t v w =>
    (answer (.attribute_global ss n t v), w.record (.attribute_global ss n t v))
  attribute_group := fun ss g n t v w =>
    (answer (.attribute_group ss g n t v), w.record (.attribute_group ss g n t v))
  ShaderGroupBegin := fun ss n w =>
    ({ ptr := grp },
      { rc := { use_count := Function.update w.rc.use_count grp (kept + 1)
                freed := Function.update w.rc.freed grp false }
        host := w.host ++ [.ShaderGroupBegin ss n] })
  Shader := fun ss g u n l w => (answer (.Shader ss g u n l), w.record (.Shader ss g u n l))
  execute := fun ss c g sg run w =>
    (answer (.execute ss c g sg run), w.record (.execute ss c g sg run))
  shade_image := fun ss g d i o l roi w =>
    (answer (.shade_image ss g d i o l roi), w.record (.shade_image ss g d i o l roi))

/-- A world with no strong reference anywhere and an empty call log. -/
def World.empty (R : Type) : World (List (HostCall R)) :=
  { rc := { use_count := fun _ => 0, freed := fun _ => false }, host := [] }

/-! ## Concrete callbacks and hosts used at explicit inputs -/

/-- A `supports` callback as in scenario S4: `1` for the feature `"rust"`,
`other` for every other feature; it has no effect. -/
def rust_only (other : Int) : RSFn_supports Unit :=
  fun _ feature s => (if feature = "rust" then 1 else other, s)

/-- A `get_matrix` callback that returns `n` and has no effect. -/
def const_get_matrix (n : Int) : RSFn_get_matrix Unit :=
  fun _ _ _ _ s => (n, s)

/-- Host defaults without effect that answer `n` and `b` for every input. -/
def const_base (n : Int) (b : Bool) : RendererServices Unit where
  supports := fun _ s => (n, s)
  get_matrix := fun _ _ _ s => (b, s)

/-! ## Auxiliary facts -/

theorem takeWhile_append_NUL (l : List Char) :
    (l ++ [NUL]).takeWhile (fun c => c != NUL) = l.takeWhile (fun c => c != NUL) := by
  induction l with
  | nil => simp [List.takeWhile]
  | cons a t ih =>
      by_cases h : a = NUL
      · simp [List.takeWhile, h]
      · simp [List.takeWhile, h, ih]

theorem c_str_eq (msg : String) :
    c_str msg = String.mk (msg.data.takeWhile (fun c => c != NUL)) := by
  simp [c_str, read_cstr, takeWhile_append_NUL]

theorem c_str_of_no_NUL (msg : String) (h : NUL ∉ msg.data) : c_str msg = msg := by
  rw [c_str_eq]
  have : msg.data.takeWhile (fun c => c != NUL) = msg.data := by
    rw [List.takeWhile_eq_self_iff]
    intro c hc
    have : c ≠ NUL := fun e => h (e ▸ hc)
    simpa using this
  rw [this]

theorem destroy_use_count_self (sp : shared_ptr) (h : RcHeap) (hp : sp.ptr ≠ 0) :
    (sp.destroy h).use_count sp.ptr = h.use_count sp.ptr - 1 := by
  simp [shared_ptr.destroy, hp]

theorem destroy_use_count_other (sp : shared_ptr) (h : RcHeap) (x : Ptr) (hx : x ≠ sp.ptr) :
    (sp.destroy h).use_count x = h.use_count x := by
  unfold shared_ptr.destroy
  split
  · rfl
  · simp [Function.update, hx]

theorem destroy_freed_self (sp : shared_ptr) (h : RcHeap) (hp : sp.ptr ≠ 0) :
    (sp.destroy h).freed sp.ptr = (h.freed sp.ptr || decide (h.use_count sp.ptr - 1 = 0)) := by
  unfold shared_ptr.destroy
  by_cases h0 : h.use_count sp.ptr - 1 = 0
  · simp [hp, h0]
  · simp [hp, h0]

theorem destroy_freed_other (sp : shared_ptr) (h : RcHeap) (x : Ptr) (hx : x ≠ sp.ptr) :
    (sp.destroy h).freed x = h.freed x := by
  unfold shared_ptr.destroy
  split
  · rfl
  · dsimp only
    split
    · simp [Function.update, hx]
    · rfl

theorem copy_then_destroy (sp : shared_ptr) (h : RcHeap) (hc : 1 ≤ h.use_count sp.ptr) :
    sp.destroy (sp.copy h) = h := by
  by_cases hp : sp.ptr = 0
  · simp [shared_ptr.destroy, shared_ptr.copy, hp]
  · have h0 : ¬ (h.use_count sp.ptr = 0) := by omega
    simp [shared_ptr.destroy, shared_ptr.copy, hp, h0]

theorem destroy_n_spare (sp : shared_ptr) (hp : sp.ptr ≠ 0) (k : Nat) :
    ∀ h : RcHeap, k + 1 ≤ h.use_count sp.ptr →
      (sp.destroy_n k h).use_count sp.ptr = h.use_count sp.ptr - k ∧
      (sp.destroy_n k h).freed sp.ptr = h.freed sp.ptr := by
  induction k with
  | zero => intro h _; simp [shared_ptr.destroy_n]
  | succ k ih =>
      intro h hk
      have h1 : (sp.destroy h).use_count sp.ptr = h.use_count sp.ptr - 1 :=
        destroy_use_count_self sp h hp
      have h2 : (sp.destroy h).freed sp.ptr = h.freed sp.ptr := by
        rw [destroy_freed_self sp h hp]
        have : ¬ (h.use_count sp.ptr - 1 = 0) := by omega
        simp [this]
      have := ih (sp.destroy h) (by omega)
      simp only [shared_ptr.destroy_n]
      constructor
      · rw [this.1, h1]; omega
      · rw [this.2, h2]

/-! ## Renderer-services bridge: dispatch -/

/-- C1. Bridge fall-through: a bridge whose `_supports` slot is null answers
`supports` exactly as the host default does, and a bridge whose `_get_matrix`
slot is null answers `get_matrix` exactly as the host default does: the same
boolean and the same resulting world, hence the same out-matrix under every
way `readm` of reading it.  A bridge fresh from
`RendererServicesWrapper_create`, also after `set_rust_object`, is such a
bridge for both methods; with recording host defaults the log gains the one
host call and nothing else. -/
theorem bridge_fall_through {σ : Type} (base : RendererServices σ)
    (b : RendererServicesWrapperApi σ) (f : CStr) (sg result xform : Ptr) (s : σ)
    (rs_obj0 p : Ptr) :
    (b._supports = none → b.supports base f s = base.supports f s) ∧
    (b._get_matrix = none →
      b.get_matrix base sg result xform s = base.get_matrix sg result xform s ∧
      ∀ {M : Type} (readm : σ → Ptr → M),
        readm (b.get_matrix base sg result xform s).2 result
          = readm (base.get_matrix sg result xform s).2 result) ∧
    (RendererServicesWrapper_create σ rs_obj0).supports base f s = base.supports f s ∧
    (RendererServicesWrapper_create σ rs_obj0).get_matrix base sg result xform s
      = base.get_matrix sg result xform s ∧
    (RendererServicesWrapper_set_rust_object (RendererServicesWrapper_create σ rs_obj0) p).supports
      base f s = base.supports f s ∧
    (RendererServicesWrapper_set_rust_object (RendererServicesWrapper_create σ rs_obj0)
      p).get_matrix base sg result xform s = base.get_matrix sg result xform s ∧
    (∀ (rs : CStr → Int) (rm : Ptr → Ptr → Ptr → Bool) (log : List Event),
      (RendererServicesWrapper_create (List Event) rs_obj0).supports (spy_base rs rm) f log
        = (rs f, log ++ [Event.host_supports f]) ∧
      (RendererServicesWrapper_create (List Event) rs_obj0).get_matrix (spy_base rs rm)
        sg result xform log
        = (rm sg result xform, log ++ [Event.host_get_matrix sg result xform])) := by
  refine ⟨?_, ?_, rfl, rfl, rfl, rfl, fun _ _ _ => ⟨rfl, rfl⟩⟩
  · intro h
    simp [RendererServicesWrapperApi.supports, h]
  · intro h
    have e : b.get_matrix base sg result xform s = base.get_matrix sg result xform s := by
      simp [RendererServicesWrapperApi.get_matrix, h]
    exact ⟨e, fun readm => by rw [e]⟩

/-- Witness of C1: a bridge with only a `get_matrix` callback set has a null
`_supports` slot and answers `supports` as the host default. -/
theorem bridge_fall_through_witness :
    (RendererServicesWrapper_setfn_get_matrix (RendererServicesWrapper_create Unit 0)
        (some (const_get_matrix 1)))._supports = none ∧
    (RendererServicesWrapper_setfn_get_matrix (RendererServicesWrapper_create Unit 0)
        (some (const_get_matrix 1))).supports (const_base 5 true) "rust" ()
      = (const_base 5 true).supports "rust" () :=
  ⟨rfl, (bridge_fall_through (const_base 5 true)
      (RendererServicesWrapper_setfn_get_matrix (RendererServicesWrapper_create Unit 0)
        (some (const_get_matrix 1))) "rust" 0 0 0 () 0 0).1 rfl⟩

/-- C2. Bridge override of `supports`: when the `_supports` slot holds the
callback `cb` and the context pointer is `p`, `supports f` is exactly the call
`cb p f`: its integer result unchanged and its effect on the world and nothing
else, whatever the host default is.  With a recording callback and recording
host defaults, on a bridge configured through the setters in either order, the
log gains the single entry `cb_supports p f` and no host entry. -/
theorem bridge_supports_override {σ : Type} (b : RendererServicesWrapperApi σ)
    (base : RendererServices σ) (cb : RSFn_supports σ) (p : Ptr) (f : CStr) (s : σ)
    (hcb : b._supports = some cb) (hp : b._rs_obj = p) :
    b.supports base f s = cb p f s ∧
    (b.supports base f s).1 = (cb p f s).1 ∧
    (∀ base2 : RendererServices σ, b.supports base2 f s = b.supports base f s) ∧
    (∀ b0 : RendererServicesWrapperApi σ,
      (RendererServicesWrapper_setfn_supports (RendererServicesWrapper_set_rust_object b0 p)
        (some cb)).supports base f s = cb p f s ∧
      (RendererServicesWrapper_set_rust_object (RendererServicesWrapper_setfn_supports b0
        (some cb)) p).supports base f s = cb p f s) ∧
    (∀ (b0 : RendererServicesWrapperApi (List Event)) (ret : Ptr → CStr → Int)
        (rs : CStr → Int) (rm : Ptr → Ptr → Ptr → Bool) (log : List Event),
      (RendererServicesWrapper_setfn_supports (RendererServicesWrapper_set_rust_object b0 p)
        (some (spy_supports ret))).supports (spy_base rs rm) f log
        = (ret p f, log ++ [Event.cb_supports p f])) := by
  have e : ∀ base2 : RendererServices σ, b.supports base2 f s = cb p f s := by
    intro base2
    simp [RendererServicesWrapperApi.supports, hcb, hp]
  refine ⟨e base, by rw [e base], fun base2 => by rw [e base2, e base], fun _ => ⟨rfl, rfl⟩,
    fun _ _ _ _ _ => rfl⟩

/-- Witness of C2: the scenario-S4 callback registered with context `7`. -/
theorem bridge_supports_override_witness :
    (RendererServicesWrapper_setfn_supports
        (RendererServicesWrapper_set_rust_object (RendererServicesWrapper_create Unit 0) 7)
        (some (rust_only 0))).supports (const_base 5 true) "rust" () = rust_only 0 7 "rust" () :=
  (bridge_supports_override
    (RendererServicesWrapper_setfn_supports
      (RendererServicesWrapper_set_rust_object (RendererServicesWrapper_create Unit 0) 7)
      (some (rust_only 0)))
    (const_base 5 true) (rust_only 0) 7 "rust" () rfl rfl).1

/-- C3, as stated, fails: a registered `get_matrix` callback that returns `2`
makes `get_matrix` return `true`, whose integer value is `1`, not `2`; the
result is the same as for a callback that returns `1`, so the integer the
callback returned cannot be recovered from it. -/
theorem bridge_get_matrix_int_collapses :
    ((RendererServicesWrapper_setfn_get_matrix (RendererServicesWrapper_create Unit 0)
        (some (const_get_matrix 2))).get_matrix (const_base 0 false) 1 2 3 ()).1 = true ∧
    bool_to_int ((RendererServicesWrapper_setfn_get_matrix (RendererServicesWrapper_create Unit 0)
        (some (const_get_matrix 2))).get_matrix (const_base 0 false) 1 2 3 ()).1 = 1 ∧
    bool_to_int ((RendererServicesWrapper_setfn_get_matrix (RendererServicesWrapper_create Unit 0)
        (some (const_get_matrix 2))).get_matrix (const_base 0 false) 1 2 3 ()).1
      ≠ (const_get_matrix 2 0 1 2 3 ()).1 ∧
    (RendererServicesWrapper_setfn_get_matrix (RendererServicesWrapper_create Unit 0)
        (some (const_get_matrix 2))).get_matrix (const_base 0 false) 1 2 3 ()
      = (RendererServicesWrapper_setfn_get_matrix (RendererServicesWrapper_create Unit 0)
        (some (const_get_matrix 1))).get_matrix (const_base 0 false) 1 2 3 () := by
  decide

/-- C3, amended. Bridge override of `get_matrix`: when the `_get_matrix` slot
holds the callback `cb` and the context pointer is `p`, `get_matrix sg result
xform` is exactly the call `cb p sg result xform` (`result` being the address
of the out-matrix) with its effect on the world and nothing else, whatever the
host default is, and it returns `true` exactly when the integer returned by
`cb` is non-zero.  The integer value of the result equals the callback
return value when that is `0` or `1`, and only then.  With a recording
callback and recording host defaults the log gains the single entry
`cb_get_matrix p sg result xform` and no host entry. -/
theorem bridge_get_matrix_override {σ : Type} (b : RendererServicesWrapperApi σ)
    (base : RendererServices σ) (cb : RSFn_get_matrix σ) (p sg result xform : Ptr) (s : σ)
    (hcb : b._get_matrix = some cb) (hp : b._rs_obj = p) :
    (b.get_matrix base sg result xform s).2 = (cb p sg result xform s).2 ∧
    ((b.get_matrix base sg result xform s).1 = true ↔ (cb p sg result xform s).1 ≠ 0) ∧
    (bool_to_int (b.get_matrix base sg result xform s).1 = (cb p sg result xform s).1 ↔
      ((cb p sg result xform s).1 = 0 ∨ (cb p sg result xform s).1 = 1)) ∧
    (∀ base2 : RendererServices σ,
      b.get_matrix base2 sg result xform s = b.get_matrix base sg result xform s) ∧
    (∀ (b0 : RendererServicesWrapperApi (List Event)) (ret : Ptr → Ptr → Ptr → Ptr → Int)
        (rs : CStr → Int) (rm : Ptr → Ptr → Ptr → Bool) (log : List Event),
      (RendererServicesWrapper_setfn_get_matrix (RendererServicesWrapper_set_rust_object b0 p)
        (some (spy_get_matrix ret))).get_matrix (spy_base rs rm) sg result xform log
        = (int_to_bool (ret p sg result xform),
            log ++ [Event.cb_get_matrix p sg result xform])) := by
  have e : ∀ base2 : RendererServices σ, b.get_matrix base2 sg result xform s
      = (int_to_bool (cb p sg result xform s).1, (cb p sg result xform s).2) := by
    intro base2
    simp [RendererServicesWrapperApi.get_matrix, hcb, hp]
  refine ⟨by rw [e base], ?_, ?_, fun base2 => by rw [e base2, e base], fun _ _ _ _ _ => rfl⟩
  · rw [e base]
    simp [int_to_bool]
  · rw [e base]
    generalize (cb p sg result xform s).1 = n
    by_cases h0 : n = 0
    · subst h0
      simp [int_to_bool, bool_to_int]
    · simp only [int_to_bool, bool_to_int, bne_iff_ne, ne_eq, h0, not_false_eq_true, if_true,
        false_or]
      exact eq_comm

/-- Witness of C3 amended: a callback returning `2`, registered with context `7`. -/
theorem bridge_get_matrix_override_witness :
    ((RendererServicesWrapper_setfn_get_matrix
        (RendererServicesWrapper_set_rust_object (RendererServicesWrapper_create Unit 0) 7)
        (some (const_get_matrix 2))).get_matrix (const_base 0 false) 1 2 3 ()).1 = true ↔
      (const_get_matrix 2 7 1 2 3 ()).1 ≠ 0 :=
  (bridge_get_matrix_override
    (RendererServicesWrapper_setfn_get_matrix
      (RendererServicesWrapper_set_rust_object (RendererServicesWrapper_create Unit 0) 7)
      (some (const_get_matrix 2)))
    (const_base 0 false) (const_get_matrix 2) 7 1 2 3 () rfl rfl).2.1

/-- C4, as stated, fails: with the callback that returns `1` exactly for
`"rust"` (and `2` otherwise) registered, `supports "anything-else"` returns the
value `2` of the callback, while the host default returns `0` on that feature. -/
theorem scenario_S4_other_feature_not_host_default :
    (∀ (q : Ptr) (f : CStr) (s : Unit), (rust_only 2 q f s).1 = 1 ↔ f = "rust") ∧
    ((RendererServicesWrapper_setfn_supports (RendererServicesWrapper_create Unit 0)
        (some (rust_only 2))).supports (const_base 0 false) "rust" ()).1 = 1 ∧
    ((RendererServicesWrapper_setfn_supports (RendererServicesWrapper_create Unit 0)
        (some (rust_only 2))).supports (const_base 0 false) "anything-else" ()).1 = 2 ∧
    ((const_base 0 false).supports "anything-else" ()).1 = 0 ∧
    ((RendererServicesWrapper_setfn_supports (RendererServicesWrapper_create Unit 0)
        (some (rust_only 2))).supports (const_base 0 false) "anything-else" ()).1
      ≠ ((const_base 0 false).supports "anything-else" ()).1 := by
  refine ⟨?_, by decide, by decide, by decide, by decide⟩
  intro q f s
  by_cases h : f = "rust"
  · simp [rust_only, h]
  · simp [rust_only, h]

/-- C4, amended. Scenario S4: on a bridge whose registered `supports` callback
`cb` returns `1` exactly when the feature equals `"rust"`, `supports "rust"`
returns `1`, and for every other feature `f` the bridge returns what `cb`
itself returns for `f`, a value other than `1`; the host default is not
consulted for any feature. -/
theorem scenario_S4 {σ : Type} (b : RendererServicesWrapperApi σ) (base : RendererServices σ)
    (cb : RSFn_supports σ) (p : Ptr) (s : σ)
    (hcb : b._supports = some cb) (hp : b._rs_obj = p)
    (hrust : ∀ (q : Ptr) (f : CStr) (t : σ), (cb q f t).1 = 1 ↔ f = "rust") :
    (b.supports base "rust" s).1 = 1 ∧
    (∀ f : CStr, f ≠ "rust" →
      b.supports base f s = cb p f s ∧ (b.supports base f s).1 ≠ 1) ∧
    (∀ (f : CStr) (base2 : RendererServices σ), b.supports base2 f s = b.supports base f s) := by
  have e : ∀ (base2 : RendererServices σ) (f : CStr), b.supports base2 f s = cb p f s := by
    intro base2 f
    simp [RendererServicesWrapperApi.supports, hcb, hp]
  refine ⟨?_, ?_, fun f base2 => by rw [e base2, e base]⟩
  · rw [e base]
    exact (hrust p "rust" s).2 rfl
  · intro f hf
    refine ⟨e base f, ?_⟩
    rw [e base]
    exact fun h1 => hf ((hrust p f s).1 h1)

/-- Witness of C4 amended: the callback answering `2` off `"rust"`, over a host
default that answers `0`. -/
theorem scenario_S4_witness :
    ((RendererServicesWrapper_setfn_supports (RendererServicesWrapper_create Unit 0)
        (some (rust_only 2))).supports (const_base 0 false) "rust" ()).1 = 1 :=
  (scenario_S4
    (RendererServicesWrapper_setfn_supports (RendererServicesWrapper_create Unit 0)
      (some (rust_only 2)))
    (const_base 0 false) (rust_only 2) 0 () rfl rfl
    (by
      intro q f t
      by_cases h : f = "rust"
      · simp [rust_only, h]
      · simp [rust_only, h])).1

/-- C9. Independent slots: each of the three setters overwrites exactly its own
field of the bridge with the given value, null included, and leaves the other
two unchanged; a second write to a field replaces the first.  Consequently a
bridge with only the `supports` callback set answers `get_matrix` as the host
default, and a bridge with only the `get_matrix` callback set answers
`supports` as the host default. -/
theorem bridge_slots_independent {σ : Type} (b : RendererServicesWrapperApi σ) (p q : Ptr)
    (fs fs2 : Option (RSFn_supports σ)) (fm fm2 : Option (RSFn_get_matrix σ))
    (cbs : RSFn_supports σ) (cbm : RSFn_get_matrix σ)
    (base : RendererServices σ) (f : CStr) (sg result xform : Ptr) (s : σ) (rs_obj0 : Ptr) :
    (RendererServicesWrapper_set_rust_object b p
      = { _rs_obj := p, _supports := b._supports, _get_matrix := b._get_matrix }) ∧
    (RendererServicesWrapper_setfn_supports b fs
      = { _rs_obj := b._rs_obj, _supports := fs, _get_matrix := b._get_matrix }) ∧
    (RendererServicesWrapper_setfn_get_matrix b fm
      = { _rs_obj := b._rs_obj, _supports := b._supports, _get_matrix := fm }) ∧
    (RendererServicesWrapper_set_rust_object (RendererServicesWrapper_set_rust_object b p) q
      = RendererServicesWrapper_set_rust_object b q) ∧
    (RendererServicesWrapper_setfn_supports (RendererServicesWrapper_setfn_supports b fs) fs2
      = RendererServicesWrapper_setfn_supports b fs2) ∧
    (RendererServicesWrapper_setfn_get_matrix (RendererServicesWrapper_setfn_get_matrix b fm) fm2
      = RendererServicesWrapper_setfn_get_matrix b fm2) ∧
    ((RendererServicesWrapper_setfn_supports b none)._supports = none ∧
      (RendererServicesWrapper_setfn_get_matrix b none)._get_matrix = none) ∧
    ((RendererServicesWrapper_setfn_supports
        (RendererServicesWrapper_set_rust_object (RendererServicesWrapper_create σ rs_obj0) p)
        (some cbs)).get_matrix base sg result xform s = base.get_matrix sg result xform s) ∧
    ((RendererServicesWrapper_setfn_get_matrix
        (RendererServicesWrapper_set_rust_object (RendererServicesWrapper_create σ rs_obj0) p)
        (some cbm)).supports base f s = base.supports f s) :=
  ⟨rfl, rfl, rfl, rfl, rfl, rfl, ⟨rfl, rfl⟩, rfl, rfl⟩

/-! ## Error-handler bridge -/

/-- C5. Error-handler forwarding: for a handler built by `ErrorHandler_create`
with a non-null `impl`, dispatching `(c, m)` is exactly one call
`impl c m0`, where `m0` is the part of `m` before its first `NUL` (all of `m`
when it contains none), with the effect of that call on the world and nothing
else; the same after any `ErrorHandler_set_verbosity`.  With a recording
callback the log gains the single entry `error_impl c m0`. -/
theorem error_handler_forwarding {σ : Type} (verbosity0 : Int) (impl : ErrorHandlerImpl σ)
    (c : Int) (m : String) (s : σ) :
    (ErrorHandler_create verbosity0 (some impl)).call c m s
      = some (impl c (String.mk (m.data.takeWhile (fun ch => ch != NUL))) s) ∧
    (NUL ∉ m.data → (ErrorHandler_create verbosity0 (some impl)).call c m s = some (impl c m s)) ∧
    (∀ v : Int, (ErrorHandler_set_verbosity (ErrorHandler_create verbosity0 (some impl)) v).call
      c m s = some (impl c (String.mk (m.data.takeWhile (fun ch => ch != NUL))) s)) ∧
    (∀ log : List Event, (ErrorHandler_create verbosity0 (some spy_error_impl)).call c m log
      = some (log ++ [Event.error_impl c (String.mk (m.data.takeWhile (fun ch => ch != NUL)))])) := by
  refine ⟨?_, ?_, ?_, ?_⟩
  · simp [ErrorHandlerWrapper.call, ErrorHandler_create, c_str_eq]
  · intro h
    simp [ErrorHandlerWrapper.call, ErrorHandler_create, c_str_of_no_NUL m h]
  · intro v
    simp [ErrorHandlerWrapper.call, ErrorHandler_create, ErrorHandler_set_verbosity, c_str_eq]
  · intro log
    simp [ErrorHandlerWrapper.call, ErrorHandler_create, c_str_eq, spy_error_impl]

/-- Witness of C5: the message `"bad"` contains no `NUL` and arrives whole. -/
theorem error_handler_forwarding_witness :
    NUL ∉ "bad".data ∧
    (ErrorHandler_create 1 (some spy_error_impl)).call 3 "bad" []
      = some (spy_error_impl 3 "bad" []) :=
  ⟨by decide, (error_handler_forwarding 1 spy_error_impl 3 "bad" []).2.1 (by decide)⟩

/-- C6. Verbosity round trip: `ErrorHandler_set_verbosity eh v` followed by
`ErrorHandler_get_verbosity` returns `v`, for every handler and every integer
`v`, the values 0, 1, 2, 3 among them; `set_verbosity` leaves the stored
callback unchanged, so dispatch behaves as before, and the later of two
settings is the one read back. -/
theorem verbosity_round_trip {σ : Type} (eh : ErrorHandlerWrapper σ) (v v2 : Int) :
    ErrorHandler_get_verbosity (ErrorHandler_set_verbosity eh v) = v ∧
    (ErrorHandler_set_verbosity eh v)._error_handler_impl = eh._error_handler_impl ∧
    (ErrorHandler_set_verbosity eh v
      = { m_verbosity := v, _error_handler_impl := eh._error_handler_impl }) ∧
    (∀ (c : Int) (m : String) (s : σ), (ErrorHandler_set_verbosity eh v).call c m s = eh.call c m s) ∧
    ErrorHandler_get_verbosity (ErrorHandler_set_verbosity (ErrorHandler_set_verbosity eh v) v2)
      = v2 ∧
    (∀ (impl : Option (ErrorHandlerImpl σ)) (verbosity0 : Int),
      ErrorHandler_get_verbosity (ErrorHandler_set_verbosity
          (ErrorHandler_create verbosity0 impl) 0) = 0 ∧
      ErrorHandler_get_verbosity (ErrorHandler_set_verbosity
          (ErrorHandler_create verbosity0 impl) 1) = 1 ∧
      ErrorHandler_get_verbosity (ErrorHandler_set_verbosity
          (ErrorHandler_create verbosity0 impl) 2) = 2 ∧
      ErrorHandler_get_verbosity (ErrorHandler_set_verbosity
          (ErrorHandler_create verbosity0 impl) 3) = 3) :=
  ⟨rfl, rfl, rfl, fun _ _ _ => rfl, rfl, fun _ _ => ⟨rfl, rfl, rfl, rfl⟩⟩

/-! ## Shader-group holder -/

/-- C7. Shader-group holder keeps the group alive.  Let the host operation
`ShaderGroupBegin` return the non-empty handle `sp` in world `w1`, the returned
handle being counted among the strong references of its group.  Then
`ShadingSystem_shader_group_begin` yields a holder of exactly `sp` and leaves
the world `w1` as it is: the holder has taken over the one reference the host
returned.  In every later world `w2` in which the holder still exists (so the
count of the group is at least 1 and the group is live): `ShaderGroup_destroy`
on the holder lowers the strong count of that group by exactly one and touches
nothing else; the other owners can drop at most the `use_count - 1` references
that are not held by the holder, and after any such `k` drops the count is
still at least 1 and the group is not freed; and after the release the group
is freed exactly when the reference of the holder was the only one, that is,
when the count has reached 0. -/
theorem shader_group_holder_keeps_group_alive {H R : Type} (host : Host H R) (ss : Ptr)
    (groupname : CStr) (w w1 : World H) (sp : shared_ptr)
    (hbegin : host.ShaderGroupBegin ss groupname w = (sp, w1))
    (hnonnull : sp.ptr ≠ 0)
    (hcounted : 1 ≤ w1.rc.use_count sp.ptr) :
    (ShadingSystem_shader_group_begin host ss groupname w).1.group = sp ∧
    (ShadingSystem_shader_group_begin host ss groupname w).2 = w1 ∧
    (∀ w2 : World H, 1 ≤ w2.rc.use_count sp.ptr → w2.rc.freed sp.ptr = false →
      ((ShaderGroup_destroy (ShadingSystem_shader_group_begin host ss groupname w).1
          w2).rc.use_count sp.ptr + 1 = w2.rc.use_count sp.ptr) ∧
      (∀ x : Ptr, x ≠ sp.ptr →
        (ShaderGroup_destroy (ShadingSystem_shader_group_begin host ss groupname w).1
            w2).rc.use_count x = w2.rc.use_count x ∧
        (ShaderGroup_destroy (ShadingSystem_shader_group_begin host ss groupname w).1
            w2).rc.freed x = w2.rc.freed x) ∧
      ((ShaderGroup_destroy (ShadingSystem_shader_group_begin host ss groupname w).1 w2).host
        = w2.host) ∧
      (∀ k : Nat, k ≤ w2.rc.use_count sp.ptr - 1 →
        1 ≤ (sp.destroy_n k w2.rc).use_count sp.ptr ∧
        (sp.destroy_n k w2.rc).freed sp.ptr = false) ∧
      ((ShaderGroup_destroy (ShadingSystem_shader_group_begin host ss groupname w).1
          w2).rc.freed sp.ptr = true ↔ w2.rc.use_count sp.ptr = 1) ∧
      ((ShaderGroup_destroy (ShadingSystem_shader_group_begin host ss groupname w).1
          w2).rc.freed sp.ptr = true ↔
        (ShaderGroup_destroy (ShadingSystem_shader_group_begin host ss groupname w).1
          w2).rc.use_count sp.ptr = 0)) := by
  have hg : (ShadingSystem_shader_group_begin host ss groupname w).1.group = sp := by
    simp [ShadingSystem_shader_group_begin, hbegin]
  have hw : (ShadingSystem_shader_group_begin host ss groupname w).2 = w1 := by
    simp [ShadingSystem_shader_group_begin, hbegin, copy_then_destroy sp w1.rc hcounted]
  refine ⟨hg, hw, ?_⟩
  intro w2 hc2 hlive
  have hu := destroy_use_count_self sp w2.rc hnonnull
  have hf := destroy_freed_self sp w2.rc hnonnull
  refine ⟨?_, ?_, ?_, ?_, ?_, ?_⟩
  · simp only [ShaderGroup_destroy, hg, hu]
    omega
  · intro x hx
    simp only [ShaderGroup_destroy, hg]
    exact ⟨destroy_use_count_other sp w2.rc x hx, destroy_freed_other sp w2.rc x hx⟩
  · simp [ShaderGroup_destroy]
  · intro k hk
    have := destroy_n_spare sp hnonnull k w2.rc (by omega)
    rw [this.1, this.2]
    exact ⟨by omega, hlive⟩
  · simp only [ShaderGroup_destroy, hg, hf, hlive]
    simp
    omega
  · simp only [ShaderGroup_destroy, hg, hf, hu, hlive]
    simp

/-- Witness of C7: the recording host returns the group at address `9` with two
strong references, its own and the returned one; releasing the holder in the
world right after group-begin does not free the group. -/
theorem shader_group_holder_keeps_group_alive_witness :
    (ShadingSystem_shader_group_begin (spy_host Unit (fun _ => true) 5 9 1) 5 "g"
        (World.empty Unit)).1.group = { ptr := 9 } ∧
    ((ShadingSystem_shader_group_begin (spy_host Unit (fun _ => true) 5 9 1) 5 "g"
        (World.empty Unit)).2.rc.use_count 9 = 2) ∧
    ((ShaderGroup_destroy
        (ShadingSystem_shader_group_begin (spy_host Unit (fun _ => true) 5 9 1) 5 "g"
          (World.empty Unit)).1
        (ShadingSystem_shader_group_begin (spy_host Unit (fun _ => true) 5 9 1) 5 "g"
          (World.empty Unit)).2).rc.freed 9 = true ↔
      (ShadingSystem_shader_group_begin (spy_host Unit (fun _ => true) 5 9 1) 5 "g"
          (World.empty Unit)).2.rc.use_count 9 = 1) :=
  have h := shader_group_holder_keeps_group_alive (spy_host Unit (fun _ => true) 5 9 1) 5 "g"
    (World.empty Unit)
    ((spy_host Unit (fun _ => true) 5 9 1).ShaderGroupBegin 5 "g" (World.empty Unit)).2
    { ptr := 9 } rfl (by decide) (by decide)
  ⟨h.1, by rw [h.2.1]; decide,
    (h.2.2 (ShadingSystem_shader_group_begin (spy_host Unit (fun _ => true) 5 9 1) 5 "g"
      (World.empty Unit)).2 (by decide) (by decide)).2.2.2.2.1⟩

/-! ## Flat entry points -/

/-- C8. Transparent status forwarding: each of `ShadingSystem_attribute`,
`ShadingSystem_group_attribute`, `ShadingSystem_shader`, `ShadingSystem_execute`
and `shade_image` is exactly the corresponding host operation applied to the
arguments of the caller unchanged (name, type descriptor, value pointer, the group
held by the holder, run flag, the view of the first `noutputs` elements at
`outputs`, the shade-location integer, the ROI): it returns the boolean the
host returns and has the effect of that one call and nothing else.  Against the
recording host each entry point returns the `answer` of the host, true or false, and
the log gains exactly the one call. -/
theorem status_forwarding {H R : Type} (host : Host H R) (ss ctx sg val : Ptr)
    (group : ShaderGroupRefApi) (name shaderusage shadername layername : CStr)
    (typedesc : TypeDesc) (run : Bool) (defaultsg imagebuf outputs : Ptr)
    (noutputs shadelocations : Int) (roi : R) (w : World H) :
    ShadingSystem_attribute host ss name typedesc val w
      = host.attribute_global ss name typedesc val w ∧
    ShadingSystem_group_attribute host ss group name typedesc val w
      = host.attribute_group ss group.group.ptr name typedesc val w ∧
    ShadingSystem_shader host ss group shaderusage shadername layername w
      = host.Shader ss group.group.ptr shaderusage shadername layername w ∧
    ShadingSystem_execute host ss ctx group sg run w
      = host.execute ss ctx group.group.ptr sg run w ∧
    shade_image host ss group defaultsg imagebuf outputs noutputs shadelocations roi w
      = host.shade_image ss group.group.ptr defaultsg imagebuf
          { data := outputs, size := noutputs } shadelocations roi w ∧
    (∀ (answer : HostCall R → Bool) (ss_addr grp : Ptr) (kept : Nat)
        (l : World (List (HostCall R))),
      ShadingSystem_attribute (spy_host R answer ss_addr grp kept) ss name typedesc val l
        = (answer (.attribute_global ss name typedesc val),
            { rc := l.rc, host := l.host ++ [.attribute_global ss name typedesc val] }) ∧
      ShadingSystem_group_attribute (spy_host R answer ss_addr grp kept) ss group name typedesc
          val l
        = (answer (.attribute_group ss group.group.ptr name typedesc val),
            { rc := l.rc
              host := l.host ++ [.attribute_group ss group.group.ptr name typedesc val] }) ∧
      ShadingSystem_shader (spy_host R answer ss_addr grp kept) ss group shaderusage shadername
          layername l
        = (answer (.Shader ss group.group.ptr shaderusage shadername layername),
            { rc := l.rc
              host := l.host ++ [.Shader ss group.group.ptr shaderusage shadername layername] }) ∧
      ShadingSystem_execute (spy_host R answer ss_addr grp kept) ss ctx group sg run l
        = (answer (.execute ss ctx group.group.ptr sg run),
            { rc := l.rc, host := l.host ++ [.execute ss ctx group.group.ptr sg run] }) ∧
      shade_image (spy_host R answer ss_addr grp kept) ss group defaultsg imagebuf outputs
          noutputs shadelocations roi l
        = (answer (.shade_image ss group.group.ptr defaultsg imagebuf
              { data := outputs, size := noutputs } shadelocations roi),
            { rc := l.rc
              host := l.host ++ [.shade_image ss group.group.ptr defaultsg imagebuf
                { data := outputs, size := noutputs } shadelocations roi] })) :=
  ⟨rfl, rfl, rfl, rfl, rfl, fun _ _ _ _ _ => ⟨rfl, rfl, rfl, rfl, rfl⟩⟩

/-- C10. Shading-system construction wiring: `ShadingSystem_create r` is the
host constructor applied to renderer `r`, a null texture system and a null
error handler; `ShadingSystem_create_with_error_handler r eh` is the host
constructor applied to renderer `r`, a null texture system and error handler
`eh`.  Against the recording host the log gains exactly that one constructor
call, with texture-system argument `0` and renderer argument `r`. -/
theorem shading_system_construction {H R : Type} (host : Host H R) (r eh : Ptr) (w : World H) :
    ShadingSystem_create host r w = host.ShadingSystem_new r 0 0 w ∧
    ShadingSystem_create_with_error_handler host r eh w = host.ShadingSystem_new r 0 eh w ∧
    (∀ (answer : HostCall R → Bool) (ss_addr grp : Ptr) (kept : Nat)
        (l : World (List (HostCall R))),
      ShadingSystem_create (spy_host R answer ss_addr grp kept) r l
        = (ss_addr, { rc := l.rc, host := l.host ++ [.ShadingSystem_new r 0 0] }) ∧
      ShadingSystem_create_with_error_handler (spy_host R answer ss_addr grp kept) r eh l
        = (ss_addr, { rc := l.rc, host := l.host ++ [.ShadingSystem_new r 0 eh] })) :=
  ⟨rfl, rfl, fun _ _ _ _ _ => ⟨rfl, rfl⟩⟩

end OslCapi
